import Mathlib

/-!
Shallow embedding of `src/modules/razorpay/service.ts` (RazorpayProviderService),
a Medusa payment-provider plugin for the Razorpay gateway.

Modelling conventions:
- Gateway SDK calls (`this.client_.orders.create`, `payments.fetch`,
  `payments.capture`, `payments.refund`, `orders.fetch`) are passed in as
  oracle functions returning `Except String r` (`.error msg` models a thrown
  gateway error caught by the surrounding try/catch). Each embedded operation
  additionally returns a log of the gateway calls it performed, so that
  "no network call happens" claims are statements about an empty log.
- `crypto.createHmac("sha256", key).update(payload).digest("hex")` is passed
  in as an oracle `hmac : String -> String -> String` (key, payload -> hex digest);
  the claims under study are about how the service uses the digest, not about
  SHA-256 itself.
- JavaScript truthiness on optional strings (`undefined` and `""` are falsy)
  is modelled by `strTruthy`; string interpolation of a possibly-undefined
  value is modelled by `jsStr` (undefined interpolates as "undefined").
- Amounts are rationals; `parseInt((x).toFixed(0))` on a finite value is
  modelled by `jsToFixed0` (round to nearest, ties toward +infinity, which is
  the ECMAScript `toFixed` tie rule "pick the larger n").
- Thrown `MedusaError`s are modelled as `Except.error` carrying the error
  type and message. Where the source throws a validation `MedusaError` inside
  a `try` whose own `catch` rewraps it, the embedding returns the rewrapped
  error, exactly as the caller observes it.
-/

/-- Error types of `MedusaError.Types` used by the service. -/
inductive MedusaErrorType where
  | invalid_data
  | unexpected_state
deriving DecidableEq, Repr

/-- A thrown `MedusaError` as observed by the caller. -/
structure MedusaError where
  errType : MedusaErrorType
  message : String
deriving DecidableEq, Repr

/-- Constructor options of the provider (`RazorpayOptions`). `webhook_secret`
is optional (`webhook_secret?: string`). -/
structure RazorpayOptions where
  key_id : String
  key_secret : String
  webhook_secret : Option String := none
deriving DecidableEq, Repr

/-- JavaScript truthiness of an optional string: `undefined` and the empty
string are falsy. -/
def strTruthy : Option String → Bool
  | none => false
  | some s => s ≠ ""

/-- JavaScript string interpolation of a possibly-undefined value: an absent
value interpolates as the literal text "undefined". -/
def jsStr : Option String → String
  | none => "undefined"
  | some s => s

/-- Model of `s.toUpperCase()`, written structurally over the character list
so that concrete instances compute. -/
def jsToUpper (s : String) : String := ⟨s.data.map Char.toUpper⟩

/-- Model of `parseInt((x).toFixed(0))` for a finite numeric `x`: ECMAScript
`toFixed(0)` picks the integer n minimising the distance to x and takes the
larger n on ties, i.e. the floor of x + 1/2. -/
def jsToFixed0 (x : ℚ) : ℤ := ⌊x + 1/2⌋

/-- A short-circuiting left-to-right character comparison: returns whether the
two lists are equal together with the number of character comparisons
performed before the scan stopped. This is the cost model of the plain string
equality (`===`) the service uses to compare HMAC digests. -/
def eqScan : List Char → List Char → Bool × Nat
  | [], [] => (true, 0)
  | [], _ :: _ => (false, 0)
  | _ :: _, [] => (false, 0)
  | a :: as, b :: bs =>
    if a = b then
      let r := eqScan as bs
      (r.1, r.2 + 1)
    else (false, 1)

/-- A Razorpay payment record as used by the service (`payments.fetch` /
`payments.capture` results and the `payment_details` stored in session data):
the service reads its `id`, `status` and `amount` (minor units). -/
structure PaymentRecord where
  id : String
  status : String
  amount : ℤ
deriving DecidableEq, Repr

/-- A Razorpay order record: the service reads its `id` and `status`. -/
structure OrderRecord where
  id : String
  status : String
deriving DecidableEq, Repr

/-- A Razorpay refund record returned by `payments.refund`. -/
structure RefundRecord where
  id : String
  amount : ℤ
  status : String
deriving DecidableEq, Repr

/-- The session `data` blob threaded through capture / cancel / refund /
status: the fields the service reads (`id`, `payment_details`,
`refund_details`) plus `rest`, standing for all other properties, which the
spread `...data` preserves untouched. -/
structure SessionData where
  id : Option String := none
  payment_details : Option PaymentRecord := none
  refund_details : Option RefundRecord := none
  rest : List (String × String) := []
deriving DecidableEq, Repr

/-- Embedding of the private helper `verifySignature(payload, signature)`:
recomputes the HMAC hex digest of `payload` under `key_secret` and compares
it to `signature` with plain string equality (`===`). -/
def verifySignature (hmac : String → String → String) (opts : RazorpayOptions)
    (payload signature : String) : Bool :=
  decide (hmac opts.key_secret payload = signature)

/-- Embedding of the private helper `verifyWebhookSignature(payload,
signature)`: returns false when `webhook_secret` is not truthy (absent or
empty), otherwise compares the recomputed digest with plain string
equality. -/
def verifyWebhookSignature (hmac : String → String → String)
    (opts : RazorpayOptions) (payload signature : String) : Bool :=
  match opts.webhook_secret with
  | none => false
  | some s => if s = "" then false else decide (hmac s payload = signature)

/-- Embedding of `initiatePayment`: converts the major-unit amount with
`parseInt((amount * 100).toFixed(0))`, upper-cases the currency, and calls
`orders.create`. On a gateway error the catch block rethrows a MedusaError
of type UNEXPECTED_STATE carrying the description. The second component logs
the (amount, currency) arguments of every `orders.create` call made. -/
def initiatePayment (createOrder : ℤ → String → Except String OrderRecord)
    (amount : ℚ) (currency_code : String) :
    Except MedusaError (String × OrderRecord) × List (ℤ × String) :=
  let paymentAmount := jsToFixed0 (amount * 100)
  let cur := jsToUpper currency_code
  match createOrder paymentAmount cur with
  | .ok razorpayOrder => (.ok (razorpayOrder.id, razorpayOrder), [(paymentAmount, cur)])
  | .error msg =>
    (.error ⟨.unexpected_state, "Failed to initiate Razorpay payment: " ++ msg⟩,
     [(paymentAmount, cur)])

/-- The `data` blob received by `authorizePayment`: the three razorpay_*
fields the service reads, plus `rest` for all other properties preserved by
the spread `...data`. -/
structure AuthData where
  razorpay_order_id : Option String := none
  razorpay_payment_id : Option String := none
  razorpay_signature : Option String := none
  rest : List (String × String) := []
deriving DecidableEq, Repr

/-- The `data` blob returned by `authorizePayment`: the input blob plus the
optional `error` and `payment_details` properties the service may add. -/
structure AuthOutData where
  base : AuthData
  error : Option String := none
  payment_details : Option PaymentRecord := none
deriving DecidableEq, Repr

/-- Result of the embedded `authorizePayment`, with explicit effect logs:
`fetched` records the payment ids passed to `payments.fetch`, `verified`
records the (payload, signature) pairs passed to `verifySignature`. -/
structure AuthorizeResult where
  status : String
  data : Option AuthOutData
  fetched : List String
  verified : List (String × String)
deriving DecidableEq, Repr

/-- Embedding of `authorizePayment`: when `data` carries truthy
`razorpay_payment_id` and `razorpay_signature`, verifies the signature over
the template string of `razorpay_order_id` and the payment id joined by a
pipe, returning status "error" on failure before any fetch; on success
fetches the payment and maps its status; otherwise returns "pending" with the
data unchanged. A fetch error is caught and converted to status "error". -/
def authorizePayment (hmac : String → String → String) (opts : RazorpayOptions)
    (paymentsFetch : String → Except String PaymentRecord)
    (data : Option AuthData) : AuthorizeResult :=
  match data with
  | none => { status := "pending", data := none, fetched := [], verified := [] }
  | some a =>
    if strTruthy a.razorpay_payment_id && strTruthy a.razorpay_signature then
      let orderId := jsStr a.razorpay_order_id
      let paymentId := a.razorpay_payment_id.getD ""
      let signature := a.razorpay_signature.getD ""
      let payload := orderId ++ "|" ++ paymentId
      if ¬ verifySignature hmac opts payload signature then
        { status := "error",
          data := some { base := a, error := some "Invalid payment signature" },
          fetched := [], verified := [(payload, signature)] }
      else
        match paymentsFetch paymentId with
        | .error msg =>
          { status := "error", data := some { base := a, error := some msg },
            fetched := [paymentId], verified := [(payload, signature)] }
        | .ok payment =>
          if payment.status = "authorized" ∨ payment.status = "captured" then
            { status := if payment.status = "captured" then "captured" else "authorized",
              data := some { base := a, payment_details := some payment },
              fetched := [paymentId], verified := [(payload, signature)] }
          else
            { status := "pending",
              data := some { base := a, payment_details := some payment },
              fetched := [paymentId], verified := [(payload, signature)] }
    else
      { status := "pending", data := some { base := a }, fetched := [], verified := [] }

/-- Embedding of `capturePayment`: without a truthy `data.payment_details.id`
the service throws a validation MedusaError (INVALID_DATA, "Payment ID is
required to capture payment"), which its own catch block rewraps into an
UNEXPECTED_STATE error with the prefixed message — before any gateway call.
Otherwise it calls `payments.capture(id, amount)` and stores the captured
record. The second component logs the (id, amount) capture calls. -/
def capturePayment (captureCall : String → ℤ → Except String PaymentRecord)
    (d : Option SessionData) :
    Except MedusaError SessionData × List (String × ℤ) :=
  match d with
  | some s =>
    match s.payment_details with
    | some pd =>
      if pd.id ≠ "" then
        match captureCall pd.id pd.amount with
        | .ok capturedPayment =>
          (.ok { s with payment_details := some capturedPayment }, [(pd.id, pd.amount)])
        | .error msg =>
          (.error ⟨.unexpected_state, "Failed to capture Razorpay payment: " ++ msg⟩,
           [(pd.id, pd.amount)])
      else
        (.error ⟨.unexpected_state,
          "Failed to capture Razorpay payment: Payment ID is required to capture payment"⟩, [])
    | none =>
      (.error ⟨.unexpected_state,
        "Failed to capture Razorpay payment: Payment ID is required to capture payment"⟩, [])
  | none =>
    (.error ⟨.unexpected_state,
      "Failed to capture Razorpay payment: Payment ID is required to capture payment"⟩, [])

/-- Embedding of `cancelPayment`: when `data.payment_details.id` is truthy
and the payment status is "authorized", refunds the full minor-unit amount
via `payments.refund(id, amount)` and re-fetches the payment; otherwise
returns the data unchanged. Gateway errors are rewrapped as UNEXPECTED_STATE.
The trailing components log the (id, amount) refund calls and the ids of
`payments.fetch` calls. -/
def cancelPayment (refundCall : String → ℤ → Except String RefundRecord)
    (fetchCall : String → Except String PaymentRecord)
    (d : Option SessionData) :
    Except MedusaError (Option SessionData) × List (String × ℤ) × List String :=
  match d with
  | some s =>
    match s.payment_details with
    | some pd =>
      if pd.id ≠ "" ∧ pd.status = "authorized" then
        match refundCall pd.id pd.amount with
        | .error msg =>
          (.error ⟨.unexpected_state, "Failed to cancel Razorpay payment: " ++ msg⟩,
           [(pd.id, pd.amount)], [])
        | .ok _ =>
          match fetchCall pd.id with
          | .error msg =>
            (.error ⟨.unexpected_state, "Failed to cancel Razorpay payment: " ++ msg⟩,
             [(pd.id, pd.amount)], [pd.id])
          | .ok updatedPayment =>
            (.ok (some { s with payment_details := some updatedPayment }),
             [(pd.id, pd.amount)], [pd.id])
      else (.ok (some s), [], [])
    | none => (.ok (some s), [], [])
  | none => (.ok none, [], [])

/-- Embedding of `refundPayment`: without a truthy `data.payment_details.id`
the validation MedusaError is thrown and rewrapped by the catch block, before
any gateway call; otherwise the major-unit amount is converted with
`parseInt((amount * 100).toFixed(0))` and `payments.refund(id, refundAmount)`
is called. The second component logs the (id, amount) refund calls. -/
def refundPayment (refundCall : String → ℤ → Except String RefundRecord)
    (d : Option SessionData) (amount : ℚ) :
    Except MedusaError SessionData × List (String × ℤ) :=
  match d with
  | some s =>
    match s.payment_details with
    | some pd =>
      if pd.id ≠ "" then
        let refundAmount := jsToFixed0 (amount * 100)
        match refundCall pd.id refundAmount with
        | .ok refundData =>
          (.ok { s with refund_details := some refundData }, [(pd.id, refundAmount)])
        | .error msg =>
          (.error ⟨.unexpected_state, "Failed to refund Razorpay payment: " ++ msg⟩,
           [(pd.id, refundAmount)])
      else
        (.error ⟨.unexpected_state,
          "Failed to refund Razorpay payment: Payment ID is required to refund payment"⟩, [])
    | none =>
      (.error ⟨.unexpected_state,
        "Failed to refund Razorpay payment: Payment ID is required to refund payment"⟩, [])
  | none =>
    (.error ⟨.unexpected_state,
      "Failed to refund Razorpay payment: Payment ID is required to refund payment"⟩, [])

/-- The order-id branch of `getPaymentStatus`: reached when no payment record
is attached; fetches the order when `data.id` is truthy and maps paid to
"captured", attempted to "authorized", and anything else (including no order
id at all) to "pending"; a fetch error is caught and yields "error". -/
def getPaymentStatusOrderBranch (ordersFetch : String → Except String OrderRecord)
    (s : SessionData) : String :=
  match s.id with
  | some oid =>
    if oid ≠ "" then
      match ordersFetch oid with
      | .error _ => "error"
      | .ok order =>
        if order.status = "paid" then "captured"
        else if order.status = "attempted" then "authorized"
        else "pending"
    else "pending"
  | none => "pending"

/-- Embedding of `getPaymentStatus`: with a truthy `payment_details.id` the
payment is fetched and its status mapped (created to "pending", authorized to
"authorized", captured to "captured", failed to "error", anything else to
"pending"); otherwise the order branch runs; with no usable id at all the
result is "pending". Fetch errors are caught and yield "error". -/
def getPaymentStatus (paymentsFetch : String → Except String PaymentRecord)
    (ordersFetch : String → Except String OrderRecord)
    (d : Option SessionData) : String :=
  match d with
  | none => "pending"
  | some s =>
    match s.payment_details with
    | some pd =>
      if pd.id ≠ "" then
        match paymentsFetch pd.id with
        | .error _ => "error"
        | .ok payment =>
          if payment.status = "created" then "pending"
          else if payment.status = "authorized" then "authorized"
          else if payment.status = "captured" then "captured"
          else if payment.status = "failed" then "error"
          else "pending"
      else getPaymentStatusOrderBranch ordersFetch s
    | none => getPaymentStatusOrderBranch ordersFetch s

/-- A Razorpay payment entity inside a webhook payload
(`data.payload.payment.entity`): the service reads `order_id`, `amount` and
`error_description`. -/
structure PaymentEntity where
  id : String := ""
  order_id : String := ""
  amount : ℤ := 0
  error_description : Option String := none
deriving DecidableEq, Repr

/-- A Razorpay refund entity inside a webhook payload
(`data.payload.refund.entity`): the service reads `payment_id` and
`amount`. -/
structure RefundEntity where
  id : String := ""
  payment_id : String := ""
  amount : ℤ := 0
deriving DecidableEq, Repr

/-- The parsed webhook event object (`payload.data`): the event tag plus the
optional payment and refund entities of `data.payload`. A `none` entity
models an incoming payload that lacks it, in which case the source's property
access throws and its catch block answers. -/
structure WebhookEventData where
  event : String
  payment : Option PaymentEntity := none
  refund : Option RefundEntity := none
deriving DecidableEq, Repr

/-- The full webhook ingress payload: parsed event data, the
"x-razorpay-signature" header (absent modelled as `none`), and the raw body
text (`rawData.toString()`). -/
structure WebhookPayload where
  data : WebhookEventData
  signature_header : Option String := none
  rawData : String := ""
deriving DecidableEq, Repr

/-- The action tags a `WebhookActionResult` may carry. -/
inductive WebhookAction where
  | authorized
  | captured
  | refunded
  | failed
  | not_supported
deriving DecidableEq, Repr

/-- The `data` object of a `WebhookActionResult`: the fields the service may
populate. Absent fields are `none`. -/
structure WebhookData where
  session_id : Option String := none
  amount : Option ℚ := none
  error : Option String := none
  message : Option String := none
deriving DecidableEq, Repr

/-- Result of `getWebhookActionAndData`: an action tag and, for some actions,
a data object. -/
structure WebhookActionResult where
  action : WebhookAction
  data : Option WebhookData := none
deriving DecidableEq, Repr

/-- The result produced when the switch body throws (a missing entity makes
the property access fail) and the catch block converts the exception into a
failed action with a message. -/
def webhookCaughtError : WebhookActionResult :=
  { action := .failed, data := some { message := some "Error processing webhook" } }

/-- Embedding of the event switch of `getWebhookActionAndData`: dispatches on
`data.event`. Payment events report `session_id` from the payment entity
order_id and the entity amount divided by 100; the refund event reports
`session_id` from the refund entity payment_id. `payment.failed` also reports
`error_description` with the JavaScript fallback to "Payment failed" when
that field is absent or empty. Every other event tag yields the bare
not_supported action. -/
def webhookEventDispatch (d : WebhookEventData) : WebhookActionResult :=
  if d.event = "payment.authorized" then
    match d.payment with
    | some e =>
      { action := .authorized,
        data := some { session_id := some e.order_id, amount := some ((e.amount : ℚ) / 100) } }
    | none => webhookCaughtError
  else if d.event = "payment.captured" then
    match d.payment with
    | some e =>
      { action := .captured,
        data := some { session_id := some e.order_id, amount := some ((e.amount : ℚ) / 100) } }
    | none => webhookCaughtError
  else if d.event = "refund.processed" then
    match d.refund with
    | some r =>
      { action := .refunded,
        data := some { session_id := some r.payment_id, amount := some ((r.amount : ℚ) / 100) } }
    | none => webhookCaughtError
  else if d.event = "payment.failed" then
    match d.payment with
    | some e =>
      { action := .failed,
        data := some { session_id := some e.order_id, amount := some ((e.amount : ℚ) / 100),
                       error := some (match e.error_description with
                                      | some s => if s ≠ "" then s else "Payment failed"
                                      | none => "Payment failed") } }
    | none => webhookCaughtError
  else { action := .not_supported }

/-- Embedding of `getWebhookActionAndData`: when `webhook_secret` is truthy,
the signature header must be truthy and `verifyWebhookSignature` must accept
the raw body, else the failed action with "Invalid webhook signature" is
returned; in every other case (including an absent secret, where the guard
`if (this.options_.webhook_secret)` skips verification entirely) the event
switch runs. -/
def getWebhookActionAndData (hmac : String → String → String)
    (opts : RazorpayOptions) (p : WebhookPayload) : WebhookActionResult :=
  if strTruthy opts.webhook_secret then
    if !strTruthy p.signature_header
        || !verifyWebhookSignature hmac opts p.rawData (p.signature_header.getD "") then
      { action := .failed, data := some { message := some "Invalid webhook signature" } }
    else webhookEventDispatch p.data
  else webhookEventDispatch p.data

/-- The session reference carried by a webhook result, when present. -/
def resultSessionId (w : WebhookActionResult) : Option String :=
  w.data.bind fun x => x.session_id

/-- The signature gate of `getWebhookActionAndData` passes: either no webhook
secret is configured, or the signature header is present, nonempty and
verifies against the raw body. -/
def webhookGatePasses (hmac : String → String → String)
    (opts : RazorpayOptions) (p : WebhookPayload) : Prop :=
  strTruthy opts.webhook_secret = false ∨
    (strTruthy p.signature_header = true ∧
      verifyWebhookSignature hmac opts p.rawData (p.signature_header.getD "") = true)

/-- Correctness of the scan model: its boolean component is exactly list
equality, so it computes the same answer as the plain string comparison. -/
theorem eqScan_fst (xs ys : List Char) : (eqScan xs ys).1 = decide (xs = ys) := by
  induction xs generalizing ys with
  | nil => cases ys <;> simp [eqScan]
  | cons a as ih =>
    cases ys with
    | nil => simp [eqScan]
    | cons b bs =>
      by_cases h : a = b
      · simp [eqScan, h, ih bs]
      · simp [eqScan, h]

/-- The scan over the character lists of two strings decides string
equality. -/
theorem eqScan_eq_stringEq (s t : String) :
    (eqScan s.toList t.toList).1 = decide (s = t) := by
  rw [eqScan_fst]
  refine decide_eq_decide.mpr ?_
  constructor
  · intro h
    cases s; cases t
    simp only [String.toList] at h
    exact congrArg String.mk h
  · intro h
    rw [h]

/-- When the signature gate passes, `getWebhookActionAndData` is the event
switch applied to the parsed event data. -/
theorem gatePass_dispatch (hmac : String → String → String)
    (opts : RazorpayOptions) (p : WebhookPayload)
    (h : webhookGatePasses hmac opts p) :
    getWebhookActionAndData hmac opts p = webhookEventDispatch p.data := by
  by_cases hs : strTruthy opts.webhook_secret
  · rcases h with h | ⟨h1, h2⟩
    · rw [hs] at h; cases h
    · simp [getWebhookActionAndData, hs, h1, h2]
  · simp [getWebhookActionAndData, hs]

/-- Unfolding of `authorizePayment` when both razorpay fields are truthy: the
signature over the interpolated payload decides between the error result and
the fetch-driven results. -/
theorem authorizePayment_eq_of_truthy (hmac : String → String → String)
    (opts : RazorpayOptions) (paymentsFetch : String → Except String PaymentRecord)
    (a : AuthData) (pid sig : String)
    (hpid : a.razorpay_payment_id = some pid) (hpid0 : pid ≠ "")
    (hsig : a.razorpay_signature = some sig) (hsig0 : sig ≠ "") :
    authorizePayment hmac opts paymentsFetch (some a) =
      (if verifySignature hmac opts (jsStr a.razorpay_order_id ++ "|" ++ pid) sig then
        match paymentsFetch pid with
        | .error msg =>
          { status := "error", data := some { base := a, error := some msg },
            fetched := [pid],
            verified := [(jsStr a.razorpay_order_id ++ "|" ++ pid, sig)] }
        | .ok payment =>
          if payment.status = "authorized" ∨ payment.status = "captured" then
            { status := if payment.status = "captured" then "captured" else "authorized",
              data := some { base := a, payment_details := some payment },
              fetched := [pid],
              verified := [(jsStr a.razorpay_order_id ++ "|" ++ pid, sig)] }
          else
            { status := "pending",
              data := some { base := a, payment_details := some payment },
              fetched := [pid],
              verified := [(jsStr a.razorpay_order_id ++ "|" ++ pid, sig)] }
      else
        { status := "error",
          data := some { base := a, error := some "Invalid payment signature" },
          fetched := [],
          verified := [(jsStr a.razorpay_order_id ++ "|" ++ pid, sig)] }) := by
  simp only [authorizePayment, hpid, hsig, Option.getD_some, strTruthy]
  by_cases hv : verifySignature hmac opts (jsStr a.razorpay_order_id ++ "|" ++ pid) sig <;>
    simp [hv, hpid0, hsig0]

/-- Claim C1, counterexample: with no webhook secret configured, the helper
rejects every signature (even the correct digest), yet `getWebhookActionAndData`
still processes a payment.authorized event carrying no signature header at
all and reports it as an authorized action — so the handler does treat an
absent secret as skip-verification, contrary to the claim. -/
theorem C1_counterexample :
    verifyWebhookSignature (fun _ _ => "digest") ⟨"key", "sec", none⟩ "body" "digest" = false ∧
    getWebhookActionAndData (fun _ _ => "digest") ⟨"key", "sec", none⟩
        ⟨⟨"payment.authorized", some ⟨"pay_1", "order_1", 49900, none⟩, none⟩, none, "body"⟩ =
      ⟨.authorized, some ⟨some "order_1", some (499 : ℚ), none, none⟩⟩ := by
  refine ⟨rfl, ?_⟩
  norm_num [getWebhookActionAndData, webhookEventDispatch, strTruthy]

/-- Claim C1, amended: `verifyWebhookSignature` itself fails closed — it
returns false for every payload and signature whenever `webhook_secret` is
unset or empty — but `getWebhookActionAndData` never consults it in that
case: the guard skips verification entirely and the event switch processes
the incoming event unverified. -/
theorem C1_theorem (hmac : String → String → String) (opts : RazorpayOptions)
    (h : strTruthy opts.webhook_secret = false) :
    (∀ payload signature, verifyWebhookSignature hmac opts payload signature = false) ∧
    (∀ p : WebhookPayload, getWebhookActionAndData hmac opts p = webhookEventDispatch p.data) := by
  constructor
  · intro payload signature
    cases hw : opts.webhook_secret with
    | none => simp [verifyWebhookSignature, hw]
    | some s =>
      rw [hw] at h
      simp only [strTruthy, decide_eq_false_iff_not, not_not] at h
      simp [verifyWebhookSignature, hw, h]
  · intro p
    simp [getWebhookActionAndData, h]

/-- Claim C1, witness for the amended theorem at a concrete configuration
with no webhook secret. -/
theorem C1_witness :
    verifyWebhookSignature (fun _ _ => "h") ⟨"k", "sec", none⟩ "body" "h" = false ∧
    getWebhookActionAndData (fun _ _ => "h") ⟨"k", "sec", none⟩
        ⟨⟨"order.paid", none, none⟩, none, "body"⟩ =
      webhookEventDispatch ⟨"order.paid", none, none⟩ :=
  ⟨(C1_theorem (fun _ _ => "h") ⟨"k", "sec", none⟩ rfl).1 "body" "h",
   (C1_theorem (fun _ _ => "h") ⟨"k", "sec", none⟩ rfl).2 _⟩

/-- Claim C2, counterexample: the digest comparison the service performs is
plain string equality, whose scan model exits at the first mismatching
character: two forged signatures of equal length are both rejected, but the
comparison examines 1 character of one and all 4 of the other, so the
comparison is not constant time and leaks the mismatch position via early
exit. -/
theorem C2_counterexample :
    verifySignature (fun _ _ => "aaaa") ⟨"k", "sec", none⟩ "order_1|pay_1" "baaa" = false ∧
    verifySignature (fun _ _ => "aaaa") ⟨"k", "sec", none⟩ "order_1|pay_1" "aaab" = false ∧
    "baaa".length = "aaab".length ∧
    verifySignature (fun _ _ => "aaaa") ⟨"k", "sec", none⟩ "order_1|pay_1" "baaa" =
      (eqScan "aaaa".toList "baaa".toList).1 ∧
    (eqScan "aaaa".toList "baaa".toList).2 = 1 ∧
    (eqScan "aaaa".toList "aaab".toList).2 = 4 := by
  refine ⟨by decide, by decide, by decide, ?_, by decide, by decide⟩
  rw [eqScan_eq_stringEq]
  rfl

/-- Claim C2, amended: `authorizePayment` verifies exactly one signature,
over the exact payload interpolating the order reference, a pipe, and the
payment reference; the comparison of the recomputed digest against the
provided signature behaves as the short-circuiting scan (plain string
equality, not a constant-time comparison); and a mismatch yields the status
"error" result rather than a thrown exception. -/
theorem C2_theorem (hmac : String → String → String) (opts : RazorpayOptions)
    (paymentsFetch : String → Except String PaymentRecord) (a : AuthData)
    (pid sig : String)
    (hpid : a.razorpay_payment_id = some pid) (hpid0 : pid ≠ "")
    (hsig : a.razorpay_signature = some sig) (hsig0 : sig ≠ "") :
    (authorizePayment hmac opts paymentsFetch (some a)).verified =
      [(jsStr a.razorpay_order_id ++ "|" ++ pid, sig)] ∧
    verifySignature hmac opts (jsStr a.razorpay_order_id ++ "|" ++ pid) sig =
      (eqScan (hmac opts.key_secret (jsStr a.razorpay_order_id ++ "|" ++ pid)).toList
        sig.toList).1 ∧
    (hmac opts.key_secret (jsStr a.razorpay_order_id ++ "|" ++ pid) ≠ sig →
      (authorizePayment hmac opts paymentsFetch (some a)).status = "error") := by
  refine ⟨?_, ?_, ?_⟩
  · rw [authorizePayment_eq_of_truthy hmac opts paymentsFetch a pid sig hpid hpid0 hsig hsig0]
    split
    · split
      · rfl
      · split <;> rfl
    · rfl
  · rw [eqScan_eq_stringEq]
    rfl
  · intro hne
    rw [authorizePayment_eq_of_truthy hmac opts paymentsFetch a pid sig hpid hpid0 hsig hsig0]
    simp [verifySignature, hne]

/-- Claim C2, witness for the amended theorem at a concrete forged
signature. -/
theorem C2_witness :
    (authorizePayment (fun k p => k ++ "#" ++ p) ⟨"k", "sec", none⟩ (fun _ => .error "e")
        (some ⟨some "o", some "p", some "x", []⟩)).verified = [("o|p", "x")] ∧
    (authorizePayment (fun k p => k ++ "#" ++ p) ⟨"k", "sec", none⟩ (fun _ => .error "e")
        (some ⟨some "o", some "p", some "x", []⟩)).status = "error" := by
  have h := C2_theorem (fun k p => k ++ "#" ++ p) ⟨"k", "sec", none⟩ (fun _ => .error "e")
      ⟨some "o", some "p", some "x", []⟩ "p" "x" rfl (by decide) rfl (by decide)
  refine ⟨?_, h.2.2 (by decide)⟩
  rw [h.1]
  decide

/-- Claim C3: for every session and every tampered candidate signature (one
that does not match the recomputed digest over the interpolated payload),
`authorizePayment` returns the status "error" result carrying the invalid
signature marker, with an empty fetch log: verification short-circuits
before any gateway call, and the status is neither "pending" nor
"authorized". -/
theorem C3_theorem (hmac : String → String → String) (opts : RazorpayOptions)
    (paymentsFetch : String → Except String PaymentRecord) (a : AuthData)
    (pid sig : String)
    (hpid : a.razorpay_payment_id = some pid) (hpid0 : pid ≠ "")
    (hsig : a.razorpay_signature = some sig) (hsig0 : sig ≠ "")
    (hne : hmac opts.key_secret (jsStr a.razorpay_order_id ++ "|" ++ pid) ≠ sig) :
    authorizePayment hmac opts paymentsFetch (some a) =
      { status := "error",
        data := some { base := a, error := some "Invalid payment signature" },
        fetched := [],
        verified := [(jsStr a.razorpay_order_id ++ "|" ++ pid, sig)] } ∧
    (authorizePayment hmac opts paymentsFetch (some a)).status ≠ "pending" ∧
    (authorizePayment hmac opts paymentsFetch (some a)).status ≠ "authorized" ∧
    (authorizePayment hmac opts paymentsFetch (some a)).fetched = [] := by
  have h : authorizePayment hmac opts paymentsFetch (some a) =
      { status := "error",
        data := some { base := a, error := some "Invalid payment signature" },
        fetched := [],
        verified := [(jsStr a.razorpay_order_id ++ "|" ++ pid, sig)] } := by
    rw [authorizePayment_eq_of_truthy hmac opts paymentsFetch a pid sig hpid hpid0 hsig hsig0]
    simp [verifySignature, hne]
  rw [h]
  refine ⟨rfl, by simp, by simp, rfl⟩

/-- Claim C3, witness at a concrete forged signature: the result is the
error record and no fetch is logged. -/
theorem C3_witness :
    authorizePayment (fun k p => k ++ "#" ++ p) ⟨"k", "sec", none⟩
        (fun _ => .ok ⟨"pay_1", "authorized", 49900⟩)
        (some ⟨some "order_1", some "pay_1", some "forged", []⟩) =
      { status := "error",
        data := some { base := ⟨some "order_1", some "pay_1", some "forged", []⟩,
                       error := some "Invalid payment signature" },
        fetched := [],
        verified := [("order_1|pay_1", "forged")] } := by
  have h := C3_theorem (fun k p => k ++ "#" ++ p) ⟨"k", "sec", none⟩
      (fun _ => .ok ⟨"pay_1", "authorized", 49900⟩)
      ⟨some "order_1", some "pay_1", some "forged", []⟩ "pay_1" "forged"
      rfl (by decide) rfl (by decide) (by decide)
  rw [h.1]
  decide

/-- Claim C10: `authorizePayment` called with data lacking a truthy
`razorpay_payment_id` or a truthy `razorpay_signature` returns status
"pending" with the data unchanged (no error, no payment_details added),
having verified no signature and fetched nothing; the same holds for an
absent data blob. -/
theorem C10_theorem (hmac : String → String → String) (opts : RazorpayOptions)
    (paymentsFetch : String → Except String PaymentRecord) (a : AuthData)
    (h : strTruthy a.razorpay_payment_id = false ∨ strTruthy a.razorpay_signature = false) :
    authorizePayment hmac opts paymentsFetch (some a) =
      { status := "pending", data := some { base := a }, fetched := [], verified := [] } ∧
    authorizePayment hmac opts paymentsFetch none =
      { status := "pending", data := none, fetched := [], verified := [] } := by
  constructor
  · have hc : (strTruthy a.razorpay_payment_id && strTruthy a.razorpay_signature) = false := by
      rcases h with h | h <;> simp [h]
    simp [authorizePayment, hc]
  · rfl

/-- Claim C10, witness at a concrete data blob with an order id and a
signature but no payment id. -/
theorem C10_witness :
    authorizePayment (fun k p => k ++ "#" ++ p) ⟨"k", "sec", none⟩
        (fun _ => .ok ⟨"pay_1", "authorized", 49900⟩)
        (some ⟨some "order_1", none, some "sig", []⟩) =
      { status := "pending",
        data := some { base := ⟨some "order_1", none, some "sig", []⟩ },
        fetched := [], verified := [] } :=
  (C10_theorem (fun k p => k ++ "#" ++ p) ⟨"k", "sec", none⟩
      (fun _ => .ok ⟨"pay_1", "authorized", 49900⟩)
      ⟨some "order_1", none, some "sig", []⟩ (Or.inl rfl)).1

/-- Totality of the order branch: it only ever produces one of the four
statuses, whatever the session and oracle answers. -/
theorem getPaymentStatusOrderBranch_mem (ordersFetch : String → Except String OrderRecord)
    (s : SessionData) :
    getPaymentStatusOrderBranch ordersFetch s ∈
      (["pending", "authorized", "captured", "error"] : List String) := by
  unfold getPaymentStatusOrderBranch
  repeat' split
  all_goals simp

/-- Totality of `getPaymentStatus`: it only ever produces one of the four
statuses, whatever the input and oracle answers — in particular it never
raises on an unrecognized gateway status. -/
theorem getPaymentStatus_mem (paymentsFetch : String → Except String PaymentRecord)
    (ordersFetch : String → Except String OrderRecord) (d : Option SessionData) :
    getPaymentStatus paymentsFetch ordersFetch d ∈
      (["pending", "authorized", "captured", "error"] : List String) := by
  unfold getPaymentStatus
  repeat' split
  all_goals first
    | exact getPaymentStatusOrderBranch_mem ordersFetch _
    | simp

/-- Claim C4: `getPaymentStatus` maps a fetched payment status by the
canonical table (created to pending, authorized to authorized, captured to
captured, failed to error, anything unrecognized to pending), maps a fetched
order status paid to captured, attempted to authorized and anything else
(order created, no payment) to pending, and is total: every input yields one
of the four statuses it can produce, never an exception. -/
theorem C4_theorem (paymentsFetch : String → Except String PaymentRecord)
    (ordersFetch : String → Except String OrderRecord) (s : SessionData) :
    (∀ pd payment, s.payment_details = some pd → pd.id ≠ "" →
        paymentsFetch pd.id = .ok payment →
        getPaymentStatus paymentsFetch ordersFetch (some s) =
          (if payment.status = "created" then "pending"
           else if payment.status = "authorized" then "authorized"
           else if payment.status = "captured" then "captured"
           else if payment.status = "failed" then "error"
           else "pending")) ∧
    (∀ oid order, s.payment_details = none → s.id = some oid → oid ≠ "" →
        ordersFetch oid = .ok order →
        getPaymentStatus paymentsFetch ordersFetch (some s) =
          (if order.status = "paid" then "captured"
           else if order.status = "attempted" then "authorized"
           else "pending")) ∧
    (∀ d, getPaymentStatus paymentsFetch ordersFetch d ∈
        (["pending", "authorized", "captured", "error"] : List String)) := by
  refine ⟨?_, ?_, getPaymentStatus_mem paymentsFetch ordersFetch⟩
  · intro pd payment hpd hid hfetch
    simp [getPaymentStatus, hpd, hid, hfetch]
  · intro oid order hpd hoid hid hfetch
    simp [getPaymentStatus, getPaymentStatusOrderBranch, hpd, hoid, hid, hfetch]

/-- Claim C4, witness: a session holding a payment record whose fetch reports
the authorized status maps to "authorized". -/
theorem C4_witness :
    getPaymentStatus (fun _ => .ok ⟨"pay_1", "authorized", 49900⟩)
      (fun _ => .ok ⟨"order_1", "created"⟩)
      (some { payment_details := some ⟨"pay_1", "authorized", 49900⟩ }) = "authorized" := by
  have h := (C4_theorem (fun _ => .ok ⟨"pay_1", "authorized", 49900⟩)
      (fun _ => .ok ⟨"order_1", "created"⟩)
      { payment_details := some ⟨"pay_1", "authorized", 49900⟩ }).1
      ⟨"pay_1", "authorized", 49900⟩ ⟨"pay_1", "authorized", 49900⟩ rfl (by decide) rfl
  rw [h]
  decide

/-- Claim C5, counterexample: a negative amount is not rejected — with the
gateway oracle succeeding, `initiatePayment` at amount -1 converts it to the
minor-unit value -100, performs the gateway call (the call log is nonempty)
and returns the created order instead of failing with any validation
error. -/
theorem C5_counterexample :
    initiatePayment (fun _ _ => .ok ⟨"order_1", "created"⟩) (-1) "inr" =
      (.ok ("order_1", ⟨"order_1", "created"⟩), [((-100 : ℤ), "INR")]) := by
  have h : jsToFixed0 (-100 : ℚ) = -100 := by
    unfold jsToFixed0
    rw [Int.floor_eq_iff]
    norm_num
  have hu : jsToUpper "inr" = "INR" := rfl
  simp [initiatePayment, h, hu]

/-- Claim C5, amended: for every major-unit amount — negative ones included,
since the service performs no amount validation at all — both
`initiatePayment` and `refundPayment` send the gateway exactly the
round-half-up minor-unit conversion of amount times 100; a negative or
otherwise invalid amount is converted and sent like any other, and failures
surface only as gateway errors after the call. -/
theorem C5_theorem (createOrder : ℤ → String → Except String OrderRecord)
    (refundCall : String → ℤ → Except String RefundRecord)
    (amount amt : ℚ) (cc : String) (s : SessionData) (pd : PaymentRecord)
    (hpd : s.payment_details = some pd) (hid : pd.id ≠ "") :
    (initiatePayment createOrder amount cc).2 =
      [(jsToFixed0 (amount * 100), jsToUpper cc)] ∧
    (refundPayment refundCall (some s) amt).2 = [(pd.id, jsToFixed0 (amt * 100))] := by
  constructor
  · rcases hc : createOrder (jsToFixed0 (amount * 100)) (jsToUpper cc) with msg | o <;>
      simp [initiatePayment, hc]
  · rcases hc : refundCall pd.id (jsToFixed0 (amt * 100)) with msg | r <;>
      simp [refundPayment, hpd, hid, hc]

/-- Claim C5, witness: initiate at 499.00 INR logs a gateway order creation
for exactly 49900 minor units, and a refund of 9.995 on an attached payment
logs a refund call for exactly 1000 minor units (round half up). -/
theorem C5_witness :
    (initiatePayment (fun _ _ => .ok ⟨"order_1", "created"⟩) 499 "inr").2 =
      [((49900 : ℤ), "INR")] ∧
    (refundPayment (fun _ _ => .ok ⟨"rfnd_1", 1000, "processed"⟩)
        (some { payment_details := some ⟨"pay_1", "captured", 49900⟩ }) (1999/200)).2 =
      [("pay_1", (1000 : ℤ))] := by
  have h := C5_theorem (fun _ _ => .ok ⟨"order_1", "created"⟩)
      (fun _ _ => .ok ⟨"rfnd_1", 1000, "processed"⟩) 499 (1999/200) "inr"
      { payment_details := some ⟨"pay_1", "captured", 49900⟩ }
      ⟨"pay_1", "captured", 49900⟩ rfl (by decide)
  have h1 : jsToFixed0 ((499 : ℚ) * 100) = 49900 := by
    unfold jsToFixed0
    rw [Int.floor_eq_iff]
    norm_num
  have h2 : jsToFixed0 ((1999 : ℚ) / 200 * 100) = 1000 := by
    unfold jsToFixed0
    rw [Int.floor_eq_iff]
    norm_num
  have hu : jsToUpper "inr" = "INR" := rfl
  rw [h.1, h.2, h1, h2, hu]
  exact ⟨rfl, rfl⟩

/-- Claim C6: `capturePayment` on a session with no attached payment record
(no data, no payment_details, or an empty payment id) fails with the
validation error — the MedusaError the service throws before any gateway
call, whose message carries the "Payment ID is required to capture payment"
validation text after the catch block rewraps it — and the capture call log
is empty: no network call was made. -/
theorem C6_theorem (captureCall : String → ℤ → Except String PaymentRecord)
    (d : Option SessionData)
    (h : d = none ∨ ∃ s, d = some s ∧ (s.payment_details = none ∨
          ∃ pd, s.payment_details = some pd ∧ pd.id = "")) :
    capturePayment captureCall d =
      (.error ⟨.unexpected_state,
        "Failed to capture Razorpay payment: Payment ID is required to capture payment"⟩,
       []) := by
  rcases h with rfl | ⟨s, rfl, h⟩
  · rfl
  · rcases h with h | ⟨pd, hpd, hid⟩
    · simp [capturePayment, h]
    · simp [capturePayment, hpd, hid]

/-- Claim C6, witness: capture on a session with no payment record attached
yields the rewrapped validation error with an empty gateway call log. -/
theorem C6_witness :
    capturePayment (fun _ _ => .ok ⟨"pay_1", "captured", 49900⟩)
        (some { id := some "order_1" }) =
      (.error ⟨.unexpected_state,
        "Failed to capture Razorpay payment: Payment ID is required to capture payment"⟩,
       []) :=
  C6_theorem (fun _ _ => .ok ⟨"pay_1", "captured", 49900⟩) (some { id := some "order_1" })
    (Or.inr ⟨{ id := some "order_1" }, rfl, Or.inl rfl⟩)

/-- Claim C7: `cancelPayment` on a session whose attached payment has a
truthy id and the authorized status issues exactly one full refund for the
minor-unit amount of the payment and re-fetches that payment, returning the
session with the refreshed record; on every other session — no data, no
attached payment, or a payment not in the authorized state — it is a no-op
returning the session data unchanged with empty refund and fetch logs. -/
theorem C7_theorem (refundCall : String → ℤ → Except String RefundRecord)
    (fetchCall : String → Except String PaymentRecord) (s : SessionData) :
    (∀ pd r upd, s.payment_details = some pd → pd.id ≠ "" → pd.status = "authorized" →
        refundCall pd.id pd.amount = .ok r → fetchCall pd.id = .ok upd →
        cancelPayment refundCall fetchCall (some s) =
          (.ok (some { s with payment_details := some upd }),
           [(pd.id, pd.amount)], [pd.id])) ∧
    (∀ pd, s.payment_details = some pd → (pd.id = "" ∨ pd.status ≠ "authorized") →
        cancelPayment refundCall fetchCall (some s) = (.ok (some s), [], [])) ∧
    (s.payment_details = none →
        cancelPayment refundCall fetchCall (some s) = (.ok (some s), [], [])) ∧
    cancelPayment refundCall fetchCall none = (.ok none, [], []) := by
  refine ⟨?_, ?_, ?_, rfl⟩
  · intro pd r upd hpd hid hstat hrefund hfetch
    simp [cancelPayment, hpd, hid, hstat, hrefund, hfetch]
  · intro pd hpd h
    have hc : ¬ (pd.id ≠ "" ∧ pd.status = "authorized") := by
      rcases h with h | h
      · exact fun hc => hc.1 h
      · exact fun hc => h hc.2
    simp [cancelPayment, hpd, hc]
  · intro hpd
    simp [cancelPayment, hpd]

/-- Claim C7, witness: cancel on a session holding an authorized payment of
49900 minor units refunds exactly 49900, re-fetches the payment, and returns
the refreshed record. -/
theorem C7_witness :
    cancelPayment (fun _ _ => .ok ⟨"rfnd_1", 49900, "processed"⟩)
        (fun _ => .ok ⟨"pay_1", "refunded", 49900⟩)
        (some { payment_details := some ⟨"pay_1", "authorized", 49900⟩ }) =
      (.ok (some { payment_details := some ⟨"pay_1", "refunded", 49900⟩ }),
       [("pay_1", (49900 : ℤ))], ["pay_1"]) :=
  (C7_theorem (fun _ _ => .ok ⟨"rfnd_1", 49900, "processed"⟩)
      (fun _ => .ok ⟨"pay_1", "refunded", 49900⟩)
      { payment_details := some ⟨"pay_1", "authorized", 49900⟩ }).1
    ⟨"pay_1", "authorized", 49900⟩ ⟨"rfnd_1", 49900, "processed"⟩
    ⟨"pay_1", "refunded", 49900⟩ rfl (by decide) rfl rfl rfl

/-- Claim C8, counterexample: with a webhook secret configured and a
signature that does not verify, an event of unrecognized type yields the
failed action with the invalid-signature message — not the bare
not_supported action the claim promises for every unrecognized event. -/
theorem C8_counterexample :
    getWebhookActionAndData (fun k p => k ++ "#" ++ p) ⟨"k", "sec", some "whs"⟩
        ⟨⟨"invoice.paid", none, none⟩, some "bad", "body"⟩ =
      ⟨.failed, some ⟨none, none, none, some "Invalid webhook signature"⟩⟩ ∧
    ("invoice.paid" ∉
      (["payment.authorized", "payment.captured", "refund.processed", "payment.failed"] :
        List String)) := by
  exact ⟨rfl, by decide⟩

/-- Claim C8, amended: whenever the signature gate passes (no webhook secret
configured, or a present signature that verifies), every event whose type is
not among the four recognized tags yields the bare not_supported action with
no data, and the handler returns a value rather than raising; when a secret
is configured and the signature is missing or invalid, the handler instead
returns the failed action. -/
theorem C8_theorem (hmac : String → String → String) (opts : RazorpayOptions)
    (p : WebhookPayload)
    (hgate : webhookGatePasses hmac opts p)
    (hev : p.data.event ∉
      (["payment.authorized", "payment.captured", "refund.processed", "payment.failed"] :
        List String)) :
    getWebhookActionAndData hmac opts p = ⟨.not_supported, none⟩ := by
  rw [gatePass_dispatch hmac opts p hgate]
  simp only [List.mem_cons, List.not_mem_nil, or_false, not_or] at hev
  obtain ⟨h1, h2, h3, h4⟩ := hev
  simp [webhookEventDispatch, h1, h2, h3, h4]

/-- Claim C8, witness: with no secret configured, an unrecognized event type
yields the bare not_supported action. -/
theorem C8_witness :
    getWebhookActionAndData (fun k p => k ++ "#" ++ p) ⟨"k", "sec", none⟩
        ⟨⟨"invoice.paid", none, none⟩, none, "body"⟩ =
      ⟨.not_supported, none⟩ :=
  C8_theorem (fun k p => k ++ "#" ++ p) ⟨"k", "sec", none⟩
    ⟨⟨"invoice.paid", none, none⟩, none, "body"⟩ (Or.inl rfl) (by decide)

/-- Claim C9: the session reference reported by `getWebhookActionAndData` is
not one identifier kind: past the signature gate, payment.authorized,
payment.captured and payment.failed events report the payment entity
order_id as session_id, while refund.processed events report the refund
entity payment_id as session_id. -/
theorem C9_theorem (hmac : String → String → String) (opts : RazorpayOptions)
    (p : WebhookPayload) (e : PaymentEntity) (r : RefundEntity)
    (hgate : webhookGatePasses hmac opts p) :
    (p.data.event = "payment.authorized" → p.data.payment = some e →
      resultSessionId (getWebhookActionAndData hmac opts p) = some e.order_id) ∧
    (p.data.event = "payment.captured" → p.data.payment = some e →
      resultSessionId (getWebhookActionAndData hmac opts p) = some e.order_id) ∧
    (p.data.event = "payment.failed" → p.data.payment = some e →
      resultSessionId (getWebhookActionAndData hmac opts p) = some e.order_id) ∧
    (p.data.event = "refund.processed" → p.data.refund = some r →
      resultSessionId (getWebhookActionAndData hmac opts p) = some r.payment_id) := by
  rw [gatePass_dispatch hmac opts p hgate]
  refine ⟨?_, ?_, ?_, ?_⟩ <;> intro hev hent <;>
    simp [webhookEventDispatch, resultSessionId, hev, hent]

/-- Claim C9, witness: past the gate, a refund.processed webhook reports the
refund entity payment_id, not an order id, as the session reference. -/
theorem C9_witness :
    resultSessionId (getWebhookActionAndData (fun k p => k ++ "#" ++ p) ⟨"k", "sec", none⟩
        ⟨⟨"refund.processed", none, some ⟨"rfnd_1", "pay_1", 49900⟩⟩, none, "body"⟩) =
      some "pay_1" :=
  (C9_theorem (fun k p => k ++ "#" ++ p) ⟨"k", "sec", none⟩
      ⟨⟨"refund.processed", none, some ⟨"rfnd_1", "pay_1", 49900⟩⟩, none, "body"⟩
      ⟨"", "", 0, none⟩ ⟨"rfnd_1", "pay_1", 49900⟩ (Or.inl rfl)).2.2.2 rfl rfl
